/-
  Verification of the remuxeador core against its specification.

  The Python source under src/core is shallowly embedded: pure functions
  become Lean functions, stateful methods become explicit state passing,
  `datetime.now()` / `time.time()` become explicit time parameters, and
  exception-raising code returns `Except String`.
-/
import Mathlib

set_option maxRecDepth 4000

namespace Remux

/-! ## Domain enums (src/core/domain/enums.py) -/

/-- `TrackType` from enums.py. -/
inductive TrackType where
  | video
  | audio
  | subtitle
  | attachment
deriving DecidableEq, Repr

/-- `JobStatus` from enums.py. -/
inductive JobStatus where
  | pending
  | running
  | completed
  | failed
  | cancelled
deriving DecidableEq, Repr

/-- `LanguageCode` from enums.py; `value` holds the string value of each member. -/
inductive LanguageCode where
  | japanese
  | spanish
  | spanish_latin
  | spanish_spain
  | spanish_mexico
  | english
  | english_us
  | english_uk
  | portuguese
  | portuguese_br
  | portuguese_pt
  | french
  | german
  | italian
  | chinese
  | korean
  | russian
  | arabic
  | unknown
deriving DecidableEq, Repr

/-- The `.value` attribute of each `LanguageCode` member. -/
def LanguageCode.value : LanguageCode → String
  | .japanese => "ja"
  | .spanish => "es"
  | .spanish_latin => "es-419"
  | .spanish_spain => "es-ES"
  | .spanish_mexico => "es-MX"
  | .english => "en"
  | .english_us => "en-US"
  | .english_uk => "en-GB"
  | .portuguese => "pt"
  | .portuguese_br => "pt-BR"
  | .portuguese_pt => "pt-PT"
  | .french => "fr"
  | .german => "de"
  | .italian => "it"
  | .chinese => "zh"
  | .korean => "ko"
  | .russian => "ru"
  | .arabic => "ar"
  | .unknown => "und"

/-! ## Domain models (src/core/domain/models.py)

Paths (`pathlib.Path`) are embedded as `String`; timestamps as `ℚ`. -/

/-- `Track` from models.py: a frozen dataclass, one media stream. -/
structure Track where
  id : Int
  type : TrackType
  codec : String
  language : LanguageCode := .unknown
  title : Option String := none
  offset_ms : Int := 0
  is_default : Bool := false
  is_forced : Bool := false
  file_path : Option String := none
  bitrate : Option Int := none
  duration : Option ℚ := none
deriving DecidableEq, Repr

/-- `Track.with_offset` from models.py: returns a new Track with the
offset replaced, every other field copied. -/
def Track.with_offset (t : Track) (offset_ms : Int) : Track :=
  { id := t.id
    type := t.type
    codec := t.codec
    language := t.language
    title := t.title
    offset_ms := offset_ms
    is_default := t.is_default
    is_forced := t.is_forced
    file_path := t.file_path
    bitrate := t.bitrate
    duration := t.duration }

/-- `RemuxJob` from models.py: a mutable unit of work.  Mutation is
embedded as functions `RemuxJob → RemuxJob`; `datetime.now()` becomes an
explicit `now : ℚ` argument. -/
structure RemuxJob where
  video_file : String
  output_file : String
  audio_tracks : List Track := []
  subtitle_tracks : List Track := []
  overwrite_source_subtitles : Bool := false
  include_original_audio : Bool := true
  include_original_subtitles : Bool := true
  status : JobStatus := .pending
  progress : Int := 0
  error_message : Option String := none
  created_at : ℚ := 0
  started_at : Option ℚ := none
  completed_at : Option ℚ := none
deriving DecidableEq, Repr

/-- `RemuxJob.start` from models.py: unconditionally sets status to
RUNNING, records the start time and resets progress — the source has no
guard on the current status. -/
def RemuxJob.start (job : RemuxJob) (now : ℚ) : RemuxJob :=
  { job with status := .running, started_at := some now, progress := 0 }

/-- `RemuxJob.complete` from models.py: unconditionally sets status to
COMPLETED, records the completion time and sets progress to 100. -/
def RemuxJob.complete (job : RemuxJob) (now : ℚ) : RemuxJob :=
  { job with status := .completed, completed_at := some now, progress := 100 }

/-- `RemuxJob.fail` from models.py: unconditionally sets status to
FAILED, records the completion time and the error message. -/
def RemuxJob.fail (job : RemuxJob) (error_message : String) (now : ℚ) : RemuxJob :=
  { job with status := .failed, completed_at := some now,
             error_message := some error_message }

/-- `RemuxJob.update_progress` from models.py: clamps to [0, 100]. -/
def RemuxJob.update_progress (job : RemuxJob) (progress : Int) : RemuxJob :=
  { job with progress := max 0 (min 100 progress) }

/-- `RemuxResult` from models.py. -/
structure RemuxResult where
  success : Bool
  output_file : Option String := none
  error_message : Option String := none
  duration_seconds : Option ℚ := none
  input_size_bytes : Option Int := none
  output_size_bytes : Option Int := none
deriving DecidableEq, Repr

/-- `Episode` from models.py. -/
structure Episode where
  number : Int
  video_file : Option String := none
  audio_files : List String := []
  subtitle_files : List String := []
  forced_subtitle_files : List String := []
deriving DecidableEq, Repr

/-- `Episode.is_complete` from models.py: the episode has a video file. -/
def Episode.is_complete (e : Episode) : Bool :=
  e.video_file.isSome

/-! ## Validators (src/core/utils/validators.py)

Exception-raising validators are embedded as `Except String`; the error
payload is the `ValidationError` message. -/

/-- The bounds message raised by `validate_tracks` for a track whose
offset exceeds one hour (f-string of validators.py line 134). -/
def offsetTooLargeMsg (t : Track) : String :=
  "El offset de la pista " ++ toString t.id ++ " es demasiado grande: " ++
    toString t.offset_ms ++ "ms"

/-- `validate_tracks` from validators.py: empty list passes; duplicate
ids raise; then the first track with `abs(offset_ms) > 3600000` raises. -/
def validate_tracks (tracks : List Track) : Except String Unit :=
  if tracks = [] then .ok ()
  else
    let ids := tracks.map Track.id
    if ids.length ≠ ids.dedup.length then
      .error "Hay pistas con IDs duplicados"
    else
      match tracks.find? (fun t => 3600000 < t.offset_ms.natAbs) with
      | some t => .error (offsetTooLargeMsg t)
      | none => .ok ()

/-! ## MKVMerge command builder (src/core/engines/mkvmerge_engine.py)

`Path.exists()` checks reach the filesystem; they are embedded as an
explicit oracle `fsExists : String → Bool` passed to the builder. -/

/-- `MKVMergeEngine._get_track_file`: the track's `file_path` if set,
otherwise the title when it is a non-empty string naming an existing
file, otherwise nothing. -/
def get_track_file (fsExists : String → Bool) (track : Track) : Option String :=
  match track.file_path with
  | some p => some p
  | none =>
    match track.title with
    | some t => if t ≠ "" && fsExists t then some t else none
    | none => none

/-- `MKVMergeEngine._add_video_input`: emits the track-selection flags
for the original video, then the video path.  `--subtitle-tracks` is
"all" only when subtitles are included AND `overwrite_source_subtitles`
is false. -/
def add_video_input (cmd : List String) (job : RemuxJob) : List String :=
  let audio_tracks := if job.include_original_audio then "all" else "none"
  let subtitle_tracks :=
    if job.include_original_subtitles && !job.overwrite_source_subtitles
    then "all" else "none"
  cmd ++ ["--audio-tracks", audio_tracks]
      ++ ["--subtitle-tracks", subtitle_tracks]
      ++ [job.video_file]

/-- `MKVMergeEngine._add_audio_track`: sync (if offset ≠ 0), language
(Python enum is always truthy), track name (if title is a non-empty
string), default flag (if set), then the positional file path. -/
def add_audio_track (fsExists : String → Bool) (cmd : List String)
    (track : Track) : List String :=
  match get_track_file fsExists track with
  | none => cmd
  | some audio_file =>
    cmd ++ (if track.offset_ms ≠ 0
            then ["--sync", "0:" ++ toString track.offset_ms] else [])
        ++ ["--language", "0:" ++ track.language.value]
        ++ (match track.title with
            | some t => if t ≠ "" then ["--track-name", "0:" ++ t] else []
            | none => [])
        ++ (if track.is_default then ["--default-track", "0:yes"] else [])
        ++ [audio_file]

/-- `MKVMergeEngine._add_subtitle_track`: like audio plus the forced
flag, emitted before the default flag and the positional path. -/
def add_subtitle_track (fsExists : String → Bool) (cmd : List String)
    (track : Track) : List String :=
  match get_track_file fsExists track with
  | none => cmd
  | some subtitle_file =>
    cmd ++ (if track.offset_ms ≠ 0
            then ["--sync", "0:" ++ toString track.offset_ms] else [])
        ++ ["--language", "0:" ++ track.language.value]
        ++ (match track.title with
            | some t => if t ≠ "" then ["--track-name", "0:" ++ t] else []
            | none => [])
        ++ (if track.is_forced then ["--forced-display-flag", "0:1"] else [])
        ++ (if track.is_default then ["--default-track", "0:yes"] else [])
        ++ [subtitle_file]

/-- `MKVMergeEngine.build_command`: executable, output flag + path, the
original-video input, then each extra audio track, then each extra
subtitle track, in list order. -/
def build_command (fsExists : String → Bool) (executable_path : String)
    (job : RemuxJob) : List String :=
  let cmd := [executable_path]
  let cmd := cmd ++ ["-o", job.output_file]
  let cmd := add_video_input cmd job
  let cmd := job.audio_tracks.foldl (add_audio_track fsExists) cmd
  let cmd := job.subtitle_tracks.foldl (add_subtitle_track fsExists) cmd
  cmd

/-! ## Episode matcher (src/core/services/episode_matcher.py)

`extract_episode_number` tries the compiled `EPISODE_PATTERNS` in order
(`re.search`, case-insensitive) and, on the first match, returns the
episode group (`groups[1]` when the pattern has two groups, else
`groups[0]`).  Each pattern is embedded as a matcher over `List Char`
that reproduces the regex's leftmost search and greedy/backtracking
semantics on its character classes. -/

/-- `\d` character class. -/
def isDigitCh (c : Char) : Bool := '0' ≤ c && c ≤ '9'

/-- Numeric value of a digit character. -/
def digitVal (c : Char) : Nat := c.toNat - '0'.toNat

/-- `[Ss]` character class. -/
def isSCh (c : Char) : Bool := c = 'S' || c = 's'

/-- `[Ee]` character class. -/
def isECh (c : Char) : Bool := c = 'E' || c = 'e'

/-- `\s` character class (space, tab, newline, carriage return,
vertical tab, form feed). -/
def isSpaceCh (c : Char) : Bool :=
  c = ' ' || c = '\t' || c = '\n' || c = '\r' || c = '\x0b' || c = '\x0c'

/-- `[\s_-]` character class. -/
def isSepCh (c : Char) : Bool := isSpaceCh c || c = '_' || c = '-'

/-- `[\s_\[\(]` character class (tail of pattern 4). -/
def isTail4Ch (c : Char) : Bool := isSpaceCh c || c = '_' || c = '[' || c = '('

/-- `[\s_\.-]` character class (tail of patterns 5 and 7). -/
def isTail5Ch (c : Char) : Bool := isSpaceCh c || c = '_' || c = '.' || c = '-'

/-- Consume `\s*` greedily. -/
def skipSpaces : List Char → List Char
  | c :: rest => if isSpaceCh c then skipSpaces rest else c :: rest
  | [] => []

/-- Consume `[\s_-]*` greedily. -/
def skipSeps : List Char → List Char
  | c :: rest => if isSepCh c then skipSeps rest else c :: rest
  | [] => []

/-- Match `[Ee](\d{1,2})` (greedy) at the head, returning the group. -/
def matchE12 : List Char → Option Nat
  | e :: d1 :: rest =>
    if isECh e && isDigitCh d1 then
      match rest with
      | d2 :: _ =>
        if isDigitCh d2 then some (10 * digitVal d1 + digitVal d2)
        else some (digitVal d1)
      | [] => some (digitVal d1)
    else none
  | _ => none

/-- Match `(\d{1,2})[Ee](\d{1,2})` at the head (the part of pattern 1
after `[Ss]`): the season group is greedy with backtracking from two
digits to one. -/
def matchSEAfter (l : List Char) : Option (Nat × Nat) :=
  match l with
  | d1 :: rest =>
    if isDigitCh d1 then
      match rest with
      | d2 :: rest2 =>
        if isDigitCh d2 then
          match matchE12 rest2 with
          | some ep => some (10 * digitVal d1 + digitVal d2, ep)
          | none =>
            match matchE12 rest with
            | some ep => some (digitVal d1, ep)
            | none => none
        else
          match matchE12 rest with
          | some ep => some (digitVal d1, ep)
          | none => none
      | [] => none
    else none
  | [] => none

/-- Pattern 1 `[Ss](\d{1,2})[Ee](\d{1,2})` at one position. -/
def matchPat1At : List Char → Option (Nat × Nat)
  | c :: rest => if isSCh c then matchSEAfter rest else none
  | [] => none

/-- The part of pattern 2 after `[Ss]`: `(\d{1,2})\s*[Ee](\d{1,2})`. -/
def matchSE2After (l : List Char) : Option (Nat × Nat) :=
  match l with
  | d1 :: rest =>
    if isDigitCh d1 then
      match rest with
      | d2 :: rest2 =>
        if isDigitCh d2 then
          match matchE12 (skipSpaces rest2) with
          | some ep => some (10 * digitVal d1 + digitVal d2, ep)
          | none =>
            match matchE12 (skipSpaces rest) with
            | some ep => some (digitVal d1, ep)
            | none => none
        else
          match matchE12 (skipSpaces rest) with
          | some ep => some (digitVal d1, ep)
          | none => none
      | [] => none
    else none
  | [] => none

/-- Pattern 2 `[Ss](\d{1,2})\s*[Ee](\d{1,2})` at one position. -/
def matchPat2At : List Char → Option (Nat × Nat)
  | c :: rest => if isSCh c then matchSE2After rest else none
  | [] => none

/-- Case-insensitive literal match; returns the remaining input. -/
def matchLitCI : List Char → List Char → Option (List Char)
  | [], l => some l
  | c :: cs, x :: xs => if x.toLower = c then matchLitCI cs xs else none
  | _ :: _, [] => none

/-- Match `(\d{1,3})` (greedy) at the head. -/
def matchD13 : List Char → Option Nat
  | d1 :: rest =>
    if isDigitCh d1 then
      match rest with
      | d2 :: rest2 =>
        if isDigitCh d2 then
          match rest2 with
          | d3 :: _ =>
            if isDigitCh d3 then
              some (100 * digitVal d1 + 10 * digitVal d2 + digitVal d3)
            else some (10 * digitVal d1 + digitVal d2)
          | [] => some (10 * digitVal d1 + digitVal d2)
        else some (digitVal d1)
      | [] => some (digitVal d1)
    else none
  | [] => none

/-- Pattern 3 `(?:Episode|Episodio|Ep|E)[\s_-]*(\d{1,3})` at one
position; the alternatives are tried in the regex's order. -/
def matchPat3At (l : List Char) : Option Nat :=
  let tryAlt (lit : List Char) : Option Nat :=
    match matchLitCI lit l with
    | some rest => matchD13 (skipSeps rest)
    | none => none
  match tryAlt ['e', 'p', 'i', 's', 'o', 'd', 'e'] with
  | some n => some n
  | none =>
    match tryAlt ['e', 'p', 'i', 's', 'o', 'd', 'i', 'o'] with
    | some n => some n
    | none =>
      match tryAlt ['e', 'p'] with
      | some n => some n
      | none => tryAlt ['e']

/-- Match `(\d{2,3})c` at the head where `c` satisfies `tailOk`: greedy
on the digits with backtracking from three to two. -/
def matchD23Tail (tailOk : Char → Bool) (l : List Char) : Option Nat :=
  match l with
  | d1 :: d2 :: rest =>
    if isDigitCh d1 && isDigitCh d2 then
      let two := 10 * digitVal d1 + digitVal d2
      match rest with
      | d3 :: rest3 =>
        if isDigitCh d3 then
          match rest3 with
          | t :: _ =>
            if tailOk t then some (10 * two + digitVal d3)
            else if tailOk d3 then some two else none
          | [] => if tailOk d3 then some two else none
        else if tailOk d3 then some two else none
      | [] => none
    else none
  | _ => none

/-- Pattern 4 `[\s_-](\d{2,3})[\s_\[\(]` at one position. -/
def matchPat4At : List Char → Option Nat
  | c :: rest => if isSepCh c then matchD23Tail isTail4Ch rest else none
  | [] => none

/-- Pattern 5 `^(\d{2,3})[\s_\.-]`: anchored, matched at position 0 only. -/
def matchPat5 (l : List Char) : Option Nat :=
  matchD23Tail isTail5Ch l

/-- Match `(\d{2,3})$` at the head: the digits must run to the end. -/
def matchD23End : List Char → Option Nat
  | [d1, d2] =>
    if isDigitCh d1 && isDigitCh d2 then
      some (10 * digitVal d1 + digitVal d2)
    else none
  | [d1, d2, d3] =>
    if isDigitCh d1 && isDigitCh d2 && isDigitCh d3 then
      some (100 * digitVal d1 + 10 * digitVal d2 + digitVal d3)
    else none
  | _ => none

/-- Pattern 6 `[\s_-](\d{2,3})$` at one position. -/
def matchPat6At : List Char → Option Nat
  | c :: rest => if isSepCh c then matchD23End rest else none
  | [] => none

/-- Pattern 7 `[\s_-](\d{2,3})[\s_\.-]` at one position. -/
def matchPat7At : List Char → Option Nat
  | c :: rest => if isSepCh c then matchD23Tail isTail5Ch rest else none
  | [] => none

/-- `re.search`: try the position matcher left to right, leftmost match
wins. -/
def searchPat {α : Type} (f : List Char → Option α) : List Char → Option α
  | [] => f []
  | c :: rest =>
    match f (c :: rest) with
    | some r => some r
    | none => searchPat f rest

/-- `EpisodeMatcher.extract_episode_number` on the characters of the
filename: the seven compiled patterns are tried in priority order, the
first match wins; a two-group pattern returns the second group (the
episode), a one-group pattern returns its group. -/
def extractEpisodeNumber (filename : List Char) : Option Nat :=
  match searchPat matchPat1At filename with
  | some (_, ep) => some ep
  | none =>
    match searchPat matchPat2At filename with
    | some (_, ep) => some ep
    | none =>
      match searchPat matchPat3At filename with
      | some n => some n
      | none =>
        match searchPat matchPat4At filename with
        | some n => some n
        | none =>
          match matchPat5 filename with
          | some n => some n
          | none =>
            match searchPat matchPat6At filename with
            | some n => some n
            | none =>
              match searchPat matchPat7At filename with
              | some n => some n
              | none => none

/-- `extract_episode_number` on a `String` filename. -/
def extract_episode_number (filename : String) : Option Nat :=
  extractEpisodeNumber filename.data

/-! ## Progress parsing (mkvmerge_engine.py / base_engine.py)

`MKVMergeEngine._parse_progress` searches a line for
`Progress:\s+(\d+)%` and returns `int(group(1))`;
`BaseEngine.execute` invokes the progress callback once per line whose
parse is not `None`. -/

/-- Case-sensitive literal match; returns the remaining input. -/
def matchLitCS : List Char → List Char → Option (List Char)
  | [], l => some l
  | c :: cs, x :: xs => if x = c then matchLitCS cs xs else none
  | _ :: _, [] => none

/-- Greedily consume `\d+`, accumulating the decimal value (the `int`
of the matched group). -/
def digitsAcc : Nat → List Char → Nat × List Char
  | acc, c :: rest =>
    if isDigitCh c then digitsAcc (10 * acc + digitVal c) rest
    else (acc, c :: rest)
  | acc, [] => (acc, [])

/-- Match `(\d+)%` at the head: at least one digit, consumed greedily,
followed by a percent sign. -/
def matchDigitsPercent : List Char → Option Nat
  | c :: rest =>
    if isDigitCh c then
      match digitsAcc (digitVal c) rest with
      | (n, '%' :: _) => some n
      | _ => none
    else none
  | [] => none

/-- `Progress:\s+(\d+)%` at one position. -/
def matchProgressAt (l : List Char) : Option Nat :=
  match matchLitCS ['P', 'r', 'o', 'g', 'r', 'e', 's', 's', ':'] l with
  | none => none
  | some rest =>
    match rest with
    | c :: rest2 =>
      if isSpaceCh c then matchDigitsPercent (skipSpaces rest2) else none
    | [] => none

/-- `MKVMergeEngine._parse_progress`. -/
def parse_progress (line : String) : Option Nat :=
  searchPat matchProgressAt line.data

/-- The sequence of values the `BaseEngine.execute` loop passes to the
caller-supplied progress callback, one per output line whose parse
succeeds, in line order. -/
def callbackValues (lines : List String) : List Nat :=
  lines.filterMap parse_progress

/-! ## Batch service (src/core/services/batch_service.py) -/

/-- One element of `BatchResult.results` (a dict in the source). -/
structure EpisodeOutcome where
  episode : Int
  success : Bool
  output : Option String := none
  error : Option String := none
deriving DecidableEq, Repr

/-- `BatchResult` from batch_service.py. -/
structure BatchResult where
  total_episodes : Nat
  successful : Nat
  failed : Nat
  skipped : Nat
  results : List EpisodeOutcome
  duration_seconds : ℚ
deriving DecidableEq, Repr

/-- `BatchResult.success_rate`: 0 when there are no episodes, else the
quotient (float division embedded as rational division). -/
def BatchResult.success_rate (br : BatchResult) : ℚ :=
  if br.total_episodes = 0 then 0
  else (br.successful : ℚ) / (br.total_episodes : ℚ)

/-- `EpisodeMatcher.filter_complete_episodes` on the dict embedded as an
association list: keep the episodes that have a video file. -/
def filter_complete_episodes (episodes : List (Int × Episode)) :
    List (Int × Episode) :=
  episodes.filter (fun p => p.2.is_complete)

/-- Insertion step for `sorted(dict.items())` by key. -/
def insertByKey (p : Int × Episode) : List (Int × Episode) → List (Int × Episode)
  | [] => [p]
  | q :: rest => if p.1 ≤ q.1 then p :: q :: rest else q :: insertByKey p rest

/-- `sorted(complete_episodes.items())`: ascending episode-number order
(keys are unique in a dict, so ties do not arise). -/
def sortByKey : List (Int × Episode) → List (Int × Episode)
  | [] => []
  | p :: rest => insertByKey p (sortByKey rest)

/-- `BatchService._create_job_from_episode`.  `str.format` on the output
pattern is external and embedded as the oracle `formatOutput`; the
output path is directory-joined.  Forced subtitle tracks get
`id = len(subtitle_tracks) + i` where the list has already grown by `i`
appends, i.e. `regular_count + 2*i`. -/
def create_job_from_episode (episode : Episode) (output_directory : String)
    (formatOutput : Int → String) (audio_offset_ms subtitle_offset_ms : Int) :
    Option RemuxJob :=
  match episode.video_file with
  | none => none
  | some video =>
    let output_file := output_directory ++ "/" ++ formatOutput episode.number
    let audio_tracks : List Track := episode.audio_files.enum.map (fun p =>
      { id := (p.1 : Int), type := TrackType.audio, codec := "copy",
        language := LanguageCode.spanish_latin, title := some "Español Latino",
        file_path := some p.2, offset_ms := audio_offset_ms,
        is_default := p.1 == 0 })
    let subtitle_regular : List Track := episode.subtitle_files.enum.map (fun p =>
      { id := (p.1 : Int), type := TrackType.subtitle, codec := "copy",
        language := LanguageCode.spanish_latin, title := some "Español Latino",
        file_path := some p.2, offset_ms := subtitle_offset_ms,
        is_default := p.1 == 0 })
    let subtitle_tracks : List Track :=
      subtitle_regular ++ episode.forced_subtitle_files.enum.map (fun p =>
        { id := (subtitle_regular.length : Int) + 2 * (p.1 : Int),
          type := TrackType.subtitle, codec := "copy",
          language := LanguageCode.spanish_latin, title := some "Letreros",
          file_path := some p.2, offset_ms := subtitle_offset_ms,
          is_forced := true })
    some { video_file := video, output_file := output_file,
           audio_tracks := audio_tracks, subtitle_tracks := subtitle_tracks,
           include_original_audio := true, include_original_subtitles := true,
           overwrite_source_subtitles := false }

/-- The per-episode loop of `BatchService.process_episodes`: for each
(number, episode) pair in order, build the job (`continue` when it is
`None`), run the remux, record one outcome dict, and tally the
successful/failed counters.  The single-job service call is embedded as
the oracle `runRemux`. -/
def processLoop (runRemux : RemuxJob → RemuxResult)
    (mkJob : Episode → Option RemuxJob) :
    List (Int × Episode) → List EpisodeOutcome × Nat × Nat
  | [] => ([], 0, 0)
  | (ep_num, episode) :: rest =>
    match mkJob episode with
    | none => processLoop runRemux mkJob rest
    | some job =>
      let result := runRemux job
      let entry : EpisodeOutcome :=
        if result.success then
          { episode := ep_num, success := true, output := result.output_file }
        else
          { episode := ep_num, success := false, error := result.error_message }
      let out := processLoop runRemux mkJob rest
      (entry :: out.1,
       (if result.success then out.2.1 + 1 else out.2.1),
       (if result.success then out.2.2 else out.2.2 + 1))

/-- `BatchService.process_episodes`: filter to complete episodes, return
an all-zero result if none remain, else loop over them in ascending
episode-number order.  The source hardcodes `skipped=0` in the returned
`BatchResult`; the wall-clock duration is an explicit parameter. -/
def process_episodes (episodes : List (Int × Episode))
    (output_directory : String) (formatOutput : Int → String)
    (audio_offset_ms subtitle_offset_ms : Int)
    (runRemux : RemuxJob → RemuxResult) (duration : ℚ) : BatchResult :=
  let complete_episodes := filter_complete_episodes episodes
  if complete_episodes = [] then
    { total_episodes := 0, successful := 0, failed := 0, skipped := 0,
      results := [], duration_seconds := 0 }
  else
    let sorted := sortByKey complete_episodes
    let out := processLoop runRemux
      (fun e => create_job_from_episode e output_directory formatOutput
        audio_offset_ms subtitle_offset_ms) sorted
    { total_episodes := complete_episodes.length, successful := out.2.1,
      failed := out.2.2, skipped := 0, results := out.1,
      duration_seconds := duration }

/-! ## Remux service (src/core/services/remux_service.py)

`RemuxService.remux` wraps validation, `job.start()`, engine execution
and the job-state update in one `try`; `ValidationError` and every other
`Exception` are caught and turned into a failed job plus a failure
result.  Exception-raising validation and engine execution are embedded
as `Except String`; `time.time()` at entry and at exit become `t0`,
`t1`.  The Lean function is total: its type `RemuxJob × RemuxResult`
shows that no exception escapes to the caller. -/
def RemuxService.remux (validate : Except String Unit)
    (engine_remux : RemuxJob → Except String RemuxResult)
    (job : RemuxJob) (t0 t1 : ℚ) : RemuxJob × RemuxResult :=
  match validate with
  | .error e =>
    (job.fail ("Error de validación: " ++ e) t1,
     { success := false, error_message := some e })
  | .ok _ =>
    let job1 := job.start t0
    match engine_remux job1 with
    | .error e =>
      (job1.fail ("Error inesperado: " ++ e) t1,
       { success := false, error_message := some e })
    | .ok result =>
      let job2 :=
        if result.success then job1.complete t1
        else job1.fail (result.error_message.getD "Error desconocido") t1
      (job2, { result with duration_seconds := some (t1 - t0) })

/-! ## Concrete instances used in counterexamples and witnesses -/

/-- A concrete job in COMPLETED status. -/
def jobCompleted : RemuxJob :=
  { video_file := "in.mkv", output_file := "out.mkv", status := .completed }

/-- A concrete pending job. -/
def jobPending : RemuxJob :=
  { video_file := "in.mkv", output_file := "out.mkv", status := .pending }

/-- The audio track of the C4 scenario: offset 500 ms, Latin-American
Spanish, default, with an attached file path. -/
def c4Track (ap : String) : Track :=
  { id := 0, type := .audio, codec := "copy", language := .spanish_latin,
    offset_ms := 500, is_default := true, file_path := some ap }

/-- The job of the C4 scenario: one extra audio track, no extra
subtitles, original audio excluded. -/
def c4Job (video out ap : String) : RemuxJob :=
  { video_file := video, output_file := out,
    audio_tracks := [c4Track ap], subtitle_tracks := [],
    include_original_audio := false, include_original_subtitles := true,
    overwrite_source_subtitles := false }

/-- A track whose offset is one millisecond beyond the one-hour bound. -/
def trackOffsetTooBig : Track :=
  { id := 0, type := .audio, codec := "copy", offset_ms := 3600001 }

/-- A track whose offset sits exactly on the one-hour bound. -/
def trackOffsetAtBound : Track :=
  { id := 0, type := .audio, codec := "copy", offset_ms := 3600000 }

/-- An empty batch result. -/
def batchEmpty : BatchResult :=
  { total_episodes := 0, successful := 0, failed := 0, skipped := 0,
    results := [], duration_seconds := 0 }

/-- A batch result with one success out of two episodes. -/
def batchHalf : BatchResult :=
  { total_episodes := 2, successful := 1, failed := 1, skipped := 0,
    results := [], duration_seconds := 0 }

/-- A complete episode (with a video file) for batch scenarios. -/
def epC (n : Int) : Episode :=
  { number := n, video_file := some ("ep" ++ toString n ++ ".mkv") }

/-- An incomplete episode (no video file) for batch scenarios. -/
def epN (n : Int) : Episode :=
  { number := n }

/-- The C2 batch scenario evaluated on concrete inputs: five episodes,
episode 3 without a video file, every attempted remux succeeding. -/
def batchC2 : BatchResult :=
  process_episodes [(1, epC 1), (2, epC 2), (3, epN 3), (4, epC 4), (5, epC 5)]
    "out" (fun n => "Episode_" ++ toString n ++ "_REMUX.mkv") 0 0
    (fun _ => { success := true, output_file := some "o.mkv" }) 0

end Remux

namespace Remux

/-! ## Claims C1 and C10 -/

/-- C1 counterexample: `start()` on a COMPLETED job is neither rejected
nor a no-op — it sets the status to RUNNING and changes the job; and
`complete()` on a PENDING job is not rejected — it sets COMPLETED.  This
refutes the claimed state-machine guards. -/
theorem start_on_completed_not_rejected :
    (jobCompleted.start 0).status = JobStatus.running ∧
    jobCompleted.start 0 ≠ jobCompleted ∧
    (jobPending.complete 0).status = JobStatus.completed := by
  refine ⟨rfl, ?_, rfl⟩
  intro h
  have : (jobCompleted.start 0).status = jobCompleted.status := by rw [h]
  simp [RemuxJob.start, jobCompleted] at this

/-- C1 amended: the transition methods are unguarded — from ANY current
status, `start` sets RUNNING (recording the start time and resetting
progress to 0), `complete` sets COMPLETED (progress 100), and `fail`
sets FAILED (recording the reason).  No transition is rejected. -/
theorem job_transitions_unconditional (job : RemuxJob) (now : ℚ) (msg : String) :
    (job.start now).status = JobStatus.running ∧
    (job.start now).progress = 0 ∧
    (job.start now).started_at = some now ∧
    (job.complete now).status = JobStatus.completed ∧
    (job.complete now).progress = 100 ∧
    (job.fail msg now).status = JobStatus.failed ∧
    (job.fail msg now).error_message = some msg := by
  exact ⟨rfl, rfl, rfl, rfl, rfl, rfl, rfl⟩

/-- C10: `with_offset` sets `offset_ms` to the argument and copies every
other field unchanged; the original track is untouched (embedding of the
frozen dataclass: `with_offset` is a pure function returning a new value). -/
theorem with_offset_frame (t : Track) (x : Int) :
    (t.with_offset x).offset_ms = x ∧
    (t.with_offset x).id = t.id ∧
    (t.with_offset x).type = t.type ∧
    (t.with_offset x).codec = t.codec ∧
    (t.with_offset x).language = t.language ∧
    (t.with_offset x).title = t.title ∧
    (t.with_offset x).is_default = t.is_default ∧
    (t.with_offset x).is_forced = t.is_forced ∧
    (t.with_offset x).file_path = t.file_path ∧
    (t.with_offset x).bitrate = t.bitrate ∧
    (t.with_offset x).duration = t.duration := by
  exact ⟨rfl, rfl, rfl, rfl, rfl, rfl, rfl, rfl, rfl, rfl, rfl⟩

/-! ## Claim C4: argument order in the built command -/

/-- C4: for a job with one extra audio track (offset 500, language
es-419, default) and original audio excluded, the built argument list is
exactly: output flag, the exclude-original-audio selector before the
original-video path, then `--sync 0:500`, the language flag, the
default-track flag, and finally the audio path — so no modifier flag of
that track follows its positional path argument. -/
theorem build_command_order (fs : String → Bool) (exe video out ap : String) :
    build_command fs exe (c4Job video out ap) =
      [exe, "-o", out,
       "--audio-tracks", "none", "--subtitle-tracks", "all", video,
       "--sync", "0:500", "--language", "0:es-419",
       "--default-track", "0:yes", ap] := by
  rfl

/-! ## Claim C6: track-list validation bounds -/

/-- C6: `validate_tracks` fails iff the ids are not pairwise distinct or
some track's `|offset_ms|` exceeds 3 600 000 ms; when the ids are unique
the error raised for the first offending track is the bounds message. -/
theorem validate_tracks_fail_iff (tracks : List Track) :
    ((∃ m, validate_tracks tracks = Except.error m) ↔
      (¬ (tracks.map Track.id).Nodup ∨
        ∃ t ∈ tracks, 3600000 < t.offset_ms.natAbs)) ∧
    ((tracks.map Track.id).Nodup →
      ∀ t, tracks.find? (fun t => 3600000 < t.offset_ms.natAbs) = some t →
        validate_tracks tracks = Except.error (offsetTooLargeMsg t)) := by
  by_cases he : tracks = []
  · subst he
    simp [validate_tracks]
  · by_cases hd : (tracks.map Track.id).Nodup
    · have hlen2 : (tracks.map Track.id).length = (tracks.map Track.id).dedup.length := by
        rw [List.dedup_eq_self.2 hd]
      cases hfind : tracks.find? (fun t => 3600000 < t.offset_ms.natAbs) with
      | some t =>
        have hval : validate_tracks tracks = Except.error (offsetTooLargeMsg t) := by
          simp [validate_tracks, he, hlen2, hfind]
        refine ⟨⟨fun _ => Or.inr ⟨t, List.mem_of_find?_eq_some hfind, ?_⟩,
                 fun _ => ⟨_, hval⟩⟩,
                fun _ t' ht' => ?_⟩
        · simpa using List.find?_some hfind
        · cases ht'
          exact hval
      | none =>
        have hval : validate_tracks tracks = Except.ok () := by
          simp [validate_tracks, he, hlen2, hfind]
        refine ⟨⟨fun hm => ?_, fun h => ?_⟩, fun _ t' ht' => ?_⟩
        · obtain ⟨m, hm⟩ := hm
          rw [hval] at hm
          cases hm
        · rcases h with h | ⟨t, ht, hoff⟩
          · exact absurd hd h
          · have := List.find?_eq_none.mp hfind t ht
            simp at this
            omega
        · cases ht'
    · have hlen3 : tracks.length ≠ (tracks.map Track.id).dedup.length := by
        intro h
        have hs := List.dedup_sublist (tracks.map Track.id)
        have heq := hs.eq_of_length (by simpa using h.symm)
        exact hd (heq ▸ List.nodup_dedup (tracks.map Track.id))
      have hval : validate_tracks tracks = Except.error "Hay pistas con IDs duplicados" := by
        simp [validate_tracks, he, hlen3]
      exact ⟨⟨fun _ => Or.inl hd, fun _ => ⟨_, hval⟩⟩,
             fun hnd => absurd hnd hd⟩

/-- C6 witness: a lone track with offset 3 600 001 ms fails with the
bounds message; a lone track with offset 3 600 000 ms passes. -/
theorem validate_tracks_fail_iff_witness :
    validate_tracks [trackOffsetTooBig] = Except.error (offsetTooLargeMsg trackOffsetTooBig) ∧
    ¬ ∃ m, validate_tracks [trackOffsetAtBound] = Except.error m := by
  constructor
  · exact (validate_tracks_fail_iff [trackOffsetTooBig]).2 (by decide)
      trackOffsetTooBig (by decide)
  · intro h
    exact absurd ((validate_tracks_fail_iff [trackOffsetAtBound]).1.mp h) (by decide)

/-! ## Claim C7: overwrite_source_subtitles wins over include -/

/-- C7: the original-video input carries the "none" subtitle selector
whenever `overwrite_source_subtitles` is set, even if
`include_original_subtitles` is set; it carries "all" iff subtitles are
included and the overwrite flag is off. -/
theorem video_input_subtitle_override (cmd : List String) (job : RemuxJob) :
    (job.overwrite_source_subtitles = true →
      add_video_input cmd job =
        cmd ++ ["--audio-tracks",
                if job.include_original_audio then "all" else "none",
                "--subtitle-tracks", "none", job.video_file]) ∧
    (add_video_input cmd job =
        cmd ++ ["--audio-tracks",
                if job.include_original_audio then "all" else "none",
                "--subtitle-tracks", "all", job.video_file] ↔
      job.include_original_subtitles = true ∧
        job.overwrite_source_subtitles = false) := by
  constructor
  · intro h
    simp [add_video_input, h]
  · constructor
    · intro h
      cases hio : job.include_original_subtitles <;>
        cases hov : job.overwrite_source_subtitles <;>
          simp_all [add_video_input]
    · intro ⟨h1, h2⟩
      simp [add_video_input, h1, h2]

/-- C7 witness: with both flags set the subtitle selector is "none". -/
theorem video_input_subtitle_override_witness :
    add_video_input []
        { video_file := "v.mkv", output_file := "o.mkv",
          include_original_subtitles := true,
          overwrite_source_subtitles := true } =
      ["--audio-tracks", "all", "--subtitle-tracks", "none", "v.mkv"] := by
  exact (video_input_subtitle_override []
    { video_file := "v.mkv", output_file := "o.mkv",
      include_original_subtitles := true,
      overwrite_source_subtitles := true }).1 rfl

/-! ## Claim C5: S01E03 yields the episode component -/

/-- C5: whenever the highest-priority pattern `[Ss](\d{1,2})[Ee](\d{1,2})`
matches a filename (leftmost match, groups = season and episode),
`extract_episode_number` returns the episode group — never the season —
because the patterns are tried in a fixed priority order with the
season/episode form first and the first matching pattern wins. -/
theorem extract_se_returns_episode (filename : String) (se ep : Nat)
    (h : searchPat matchPat1At filename.data = some (se, ep)) :
    extract_episode_number filename = some ep := by
  simp [extract_episode_number, extractEpisodeNumber, h]

/-- C5 witness: on "Anime - S01E03 - Title.mkv" the season/episode
pattern matches with season 1 and episode 3, and extraction returns 3. -/
theorem extract_se_returns_episode_witness :
    searchPat matchPat1At ("Anime - S01E03 - Title.mkv").data = some (1, 3) ∧
    extract_episode_number "Anime - S01E03 - Title.mkv" = some 3 :=
  ⟨by decide, extract_se_returns_episode "Anime - S01E03 - Title.mkv" 1 3 (by decide)⟩

/-! ## Claim C8: progress values passed to the callback -/

/-- C8 counterexample: the line "Progress: 150%" matches the fixed
pattern `Progress:\s+(\d+)%`, the extracted value 150 is outside 0–100,
and the execute loop passes it to the callback unclamped. -/
theorem parse_progress_over_100 :
    parse_progress "Progress: 150%" = some 150 ∧
    ¬ (150 ≤ 100) ∧
    callbackValues ["Progress: 150%"] = [150] := by
  exact ⟨by decide, by decide, by decide⟩

/-- C8 amended: every value passed to the progress callback is the
(unbounded, non-negative) integer parsed from some input line matching
`Progress:\s+(\d+)%` — the layer does not clamp it to 100 — and lines
matching no pattern produce no callback invocation. -/
theorem callback_values_from_matching_lines (lines : List String) (n : Nat)
    (h : n ∈ callbackValues lines) :
    ∃ line ∈ lines, parse_progress line = some n := by
  simpa [callbackValues, List.mem_filterMap] using h

/-- C8 witness: 42 reaches the callback from the matching line. -/
theorem callback_values_from_matching_lines_witness :
    42 ∈ callbackValues ["mkvmerge v70.0.0", "Progress: 42%"] ∧
    ∃ line ∈ ["mkvmerge v70.0.0", "Progress: 42%"],
      parse_progress line = some 42 :=
  ⟨by decide,
   callback_values_from_matching_lines ["mkvmerge v70.0.0", "Progress: 42%"] 42 (by decide)⟩

/-! ## Claim C9: success_rate never divides by zero -/

/-- C9: `success_rate` is exactly 0 for an empty batch and is
`successful / total_episodes` otherwise; the guard makes it total —
evaluating it never raises. -/
theorem success_rate_guarded (br : BatchResult) :
    (br.total_episodes = 0 → br.success_rate = 0) ∧
    (0 < br.total_episodes →
      br.success_rate = (br.successful : ℚ) / (br.total_episodes : ℚ)) := by
  constructor
  · intro h
    simp [BatchResult.success_rate, h]
  · intro h
    simp [BatchResult.success_rate, Nat.pos_iff_ne_zero.mp h]

/-- C9 witness: the empty batch rates 0; one success in two rates 1/2. -/
theorem success_rate_guarded_witness :
    batchEmpty.success_rate = 0 ∧ batchHalf.success_rate = (1 : ℚ) / 2 := by
  refine ⟨(success_rate_guarded batchEmpty).1 rfl, ?_⟩
  have h := (success_rate_guarded batchHalf).2 (by decide)
  simpa [batchHalf] using h

/-! ## Claim C3: the service catches every exception -/

/-- C3: whenever validation raises, or the engine execution raises, the
service marks the job FAILED and returns a non-success result whose
message is the exception's message; the embedding's total return type
`RemuxJob × RemuxResult` witnesses that no exception propagates. -/
theorem remux_catches_exceptions (validate : Except String Unit)
    (engine_remux : RemuxJob → Except String RemuxResult)
    (job : RemuxJob) (t0 t1 : ℚ) :
    (∀ e, validate = .error e →
      (RemuxService.remux validate engine_remux job t0 t1).1.status = JobStatus.failed ∧
      (RemuxService.remux validate engine_remux job t0 t1).2.success = false ∧
      (RemuxService.remux validate engine_remux job t0 t1).2.error_message = some e) ∧
    (∀ e, validate = .ok () → engine_remux (job.start t0) = .error e →
      (RemuxService.remux validate engine_remux job t0 t1).1.status = JobStatus.failed ∧
      (RemuxService.remux validate engine_remux job t0 t1).2.success = false ∧
      (RemuxService.remux validate engine_remux job t0 t1).2.error_message = some e) := by
  constructor
  · intro e he
    subst he
    exact ⟨rfl, rfl, rfl⟩
  · intro e hv he
    subst hv
    simp [RemuxService.remux, he, RemuxJob.fail]

/-- C3 witness: a validation error "boom" and an execution error "crash"
both surface as failed jobs with non-success results. -/
theorem remux_catches_exceptions_witness :
    (RemuxService.remux (Except.error "boom")
        (fun _ => Except.ok { success := true }) jobPending 0 1).2.error_message =
      some "boom" ∧
    (RemuxService.remux (Except.ok ())
        (fun _ => Except.error "crash") jobPending 0 1).1.status = JobStatus.failed := by
  exact ⟨((remux_catches_exceptions (Except.error "boom")
            (fun _ => Except.ok { success := true }) jobPending 0 1).1 "boom" rfl).2.2,
         ((remux_catches_exceptions (Except.ok ())
            (fun _ => Except.error "crash") jobPending 0 1).2 "crash" rfl rfl).1⟩

/-! ## Claim C2: batch over five episodes, episode 3 incomplete -/

/-- Helper: when every listed episode yields a job, the loop records
exactly one outcome per episode, in order, labelled with its number. -/
theorem processLoop_episode_numbers (runRemux : RemuxJob → RemuxResult)
    (mkJob : Episode → Option RemuxJob) (l : List (Int × Episode))
    (h : ∀ p ∈ l, (mkJob p.2).isSome) :
    ((processLoop runRemux mkJob l).1).map EpisodeOutcome.episode =
      l.map Prod.fst := by
  induction l with
  | nil => rfl
  | cons p rest ih =>
    obtain ⟨ep, e⟩ := p
    obtain ⟨j, hj⟩ := Option.isSome_iff_exists.mp (h (ep, e) (List.mem_cons_self _ _))
    have hrest := ih (fun q hq => h q (List.mem_cons_of_mem _ hq))
    cases hsucc : (runRemux j).success <;>
      simp [processLoop, hj, hsucc, hrest]

/-- C2 counterexample: in the concrete five-episode batch where exactly
episode 3 lacks a video file, the returned `skipped` counter is 0, not
the claimed 1 — the incomplete episode is removed by the completeness
filter before the loop and never counted as skipped. -/
theorem batch_skipped_zero_counterexample :
    batchC2.skipped = 0 ∧ batchC2.skipped ≠ 1 ∧ batchC2.total_episodes = 4 := by
  exact ⟨rfl, by decide, rfl⟩

/-- C2 amended: for a batch over five episodes in which exactly episode
3 lacks a video file, the result has `skipped = 0` (the incomplete
episode is filtered out before processing, not counted), `total_episodes
= 4` (post-filter), and episodes 1, 2, 4, 5 each appear exactly once in
`results`, in ascending order, regardless of which remuxes fail. -/
theorem batch_filters_incomplete (runRemux : RemuxJob → RemuxResult)
    (outdir : String) (fmt : Int → String) (ao so : Int) (dur : ℚ)
    (e1 e2 e3 e4 e5 : Episode)
    (h1 : e1.is_complete = true) (h2 : e2.is_complete = true)
    (h3 : e3.is_complete = false)
    (h4 : e4.is_complete = true) (h5 : e5.is_complete = true) :
    (process_episodes [(1, e1), (2, e2), (3, e3), (4, e4), (5, e5)]
        outdir fmt ao so runRemux dur).skipped = 0 ∧
    (process_episodes [(1, e1), (2, e2), (3, e3), (4, e4), (5, e5)]
        outdir fmt ao so runRemux dur).total_episodes = 4 ∧
    (process_episodes [(1, e1), (2, e2), (3, e3), (4, e4), (5, e5)]
        outdir fmt ao so runRemux dur).results.map EpisodeOutcome.episode =
      [1, 2, 4, 5] := by
  have hfilter : filter_complete_episodes
      [(1, e1), (2, e2), (3, e3), (4, e4), (5, e5)] =
      [(1, e1), (2, e2), (4, e4), (5, e5)] := by
    simp [filter_complete_episodes, h1, h2, h3, h4, h5]
  have hsort : sortByKey [(1, e1), (2, e2), (4, e4), (5, e5)] =
      [(1, e1), (2, e2), (4, e4), (5, e5)] := by
    norm_num [sortByKey, insertByKey]
  have hjobs : ∀ p ∈ ([(1, e1), (2, e2), (4, e4), (5, e5)] : List (Int × Episode)),
      (create_job_from_episode p.2 outdir fmt ao so).isSome := by
    intro p hp
    have hvid : p.2.video_file.isSome = true := by
      simp only [List.mem_cons, List.not_mem_nil, or_false] at hp
      rcases hp with h | h | h | h <;> subst h
      · simpa [Episode.is_complete] using h1
      · simpa [Episode.is_complete] using h2
      · simpa [Episode.is_complete] using h4
      · simpa [Episode.is_complete] using h5
    obtain ⟨v, hv⟩ := Option.isSome_iff_exists.mp hvid
    simp [create_job_from_episode, hv]
  have hkey := processLoop_episode_numbers runRemux
    (fun e => create_job_from_episode e outdir fmt ao so)
    [(1, e1), (2, e2), (4, e4), (5, e5)] hjobs
  refine ⟨?_, ?_, ?_⟩ <;>
    simp [process_episodes, hfilter, hsort, hkey]

/-- C2 amended witness: the concrete scenario instantiates the theorem
and evaluates to the stated counters and results. -/
theorem batch_filters_incomplete_witness :
    batchC2.skipped = 0 ∧ batchC2.total_episodes = 4 ∧
    batchC2.results.map EpisodeOutcome.episode = [1, 2, 4, 5] := by
  exact batch_filters_incomplete
    (fun _ => { success := true, output_file := some "o.mkv" })
    "out" (fun n => "Episode_" ++ toString n ++ "_REMUX.mkv") 0 0 0
    (epC 1) (epC 2) (epN 3) (epC 4) (epC 5)
    (by decide) (by decide) (by decide) (by decide) (by decide)

end Remux
